import Mathlib

/-!
Verification of the slide-layout assembly toolkit reimplemented by the four
generator scripts under docs/promotional-campaign/presentations/.

Geometry is modelled in thousandths of an inch (every literal passed to
Inches(...) in the scripts has at most three decimal places, so this unit is
exact).  Each script's free functions are embedded as pure functions in a
namespace named after the script (V1 .. V4); a builder that mutates a slide in
place becomes a function from the slide to the extended slide, and a builder
that appends a slide to the ambient presentation becomes a function from the
presentation to the extended presentation.
-/

namespace Scenarist

/-- Inches(x) from python-pptx, in thousandths of an inch: the argument here
is x scaled by 1000 (canvas lengths are plain integers in this unit). -/
def inch (milli : Int) : Int := milli

/-- RGBColor(r, g, b). -/
structure Color where
  r : Nat
  g : Nat
  b : Nat
deriving DecidableEq

/-- RGBColor(24, 24, 27), zinc-900, the dark background used by every script. -/
def DARK_BG : Color := ⟨24, 24, 27⟩

def WHITE : Color := ⟨255, 255, 255⟩

def RED : Color := ⟨239, 68, 68⟩

def YELLOW : Color := ⟨245, 158, 11⟩

def GREEN : Color := ⟨34, 197, 94⟩

def BLUE : Color := ⟨59, 130, 246⟩

/-- zinc-400, named GRAY in scripts 1 and 2 and ZINC_400 in scripts 3 and 4. -/
def GRAY : Color := ⟨161, 161, 170⟩

/-- RGBColor(39, 39, 42), zinc-800, the code-block backing color. -/
def ZINC_800 : Color := ⟨39, 39, 42⟩

/-- RGBColor(228, 228, 231), zinc-200, the code text color in scripts 1, 2, 4. -/
def ZINC_200 : Color := ⟨228, 228, 231⟩

/-- RGBColor(167, 243, 208), green-200, the code text color in script 3. -/
def GREEN_200 : Color := ⟨167, 243, 208⟩

/-- MSO_SHAPE constants used by the scripts. -/
inductive ShapeKind where
  | rectangle
  | roundedRectangle
  | isoscelesTriangle
  | trapezoid
deriving DecidableEq

/-- State of an element's outline: untouched, line.fill.background(), or
line.color.rgb set to a color. -/
inductive LineStyle where
  | unset
  | backgroundFill
  | colored (c : Color)
deriving DecidableEq

/-- PP_ALIGN values the scripts use (only CENTER is ever set). -/
inductive Align where
  | center
deriving DecidableEq

/-- One paragraph of a text frame: text plus the font settings the scripts
assign.  A field is none when the script leaves it untouched. -/
structure Para where
  text : String
  size : Option Nat := none
  bold : Bool := false
  fontName : Option String := none
  color : Option Color := none
  align : Option Align := none
deriving DecidableEq

/-- What kind of drawing object an element is: add_shape, add_textbox, or
add_connector. -/
inductive ElemKind where
  | shape (kind : ShapeKind)
  | textbox
  | connector
deriving DecidableEq

/-- Position plus size, in canvas units. -/
structure Box where
  left : Int
  top : Int
  width : Int
  height : Int
deriving DecidableEq

/-- A rendered unit owned by one slide. -/
structure Element where
  kind : ElemKind
  box : Box
  fill : Option Color := none
  line : LineStyle := .unset
  wordWrap : Option Bool := none
  paras : List Para := []
deriving DecidableEq

/-- An ordered sequence of elements (z-order = creation order). -/
structure Slide where
  elements : List Element
deriving DecidableEq

/-- A presentation: fixed canvas plus the ordered slides. -/
structure Pres where
  slideWidth : Int
  slideHeight : Int
  slides : List Slide
deriving DecidableEq

/-- True for elements created with add_shape. -/
def isShapeElem (e : Element) : Bool :=
  match e.kind with
  | .shape _ => true
  | _ => false

/-- The elements a builder call appended to slide s, given the slide it
returned. -/
def appended (s after : Slide) : List Element :=
  after.elements.drop s.elements.length

namespace V1

/-- create-video-1-slides.py, add_dark_slide (lines 30-41). -/
def add_dark_slide (prs : Pres) : Pres :=
  let bg : Element :=
    { kind := .shape .rectangle
      box := ⟨0, 0, prs.slideWidth, prs.slideHeight⟩
      fill := some DARK_BG
      line := .backgroundFill }
  { prs with slides := prs.slides ++ [⟨[bg]⟩] }

/-- create-video-1-slides.py, add_title (lines 44-55). -/
def add_title (slide : Slide) (text : String) (top : Int := inch 2500)
    (font_size : Nat := 60) (color : Color := WHITE) : Slide :=
  let e : Element :=
    { kind := .textbox
      box := ⟨inch 500, top, inch 12333, inch 1500⟩
      wordWrap := some true
      paras := [{ text := text, size := some font_size, bold := true
                  color := some color, align := some .center }] }
  ⟨slide.elements ++ [e]⟩

/-- create-video-1-slides.py, add_subtitle (lines 58-68). -/
def add_subtitle (slide : Slide) (text : String) (top : Int := inch 4000)
    (font_size : Nat := 32) (color : Color := GRAY) : Slide :=
  let e : Element :=
    { kind := .textbox
      box := ⟨inch 1000, top, inch 11333, inch 1000⟩
      wordWrap := some true
      paras := [{ text := text, size := some font_size
                  color := some color, align := some .center }] }
  ⟨slide.elements ++ [e]⟩

/-- create-video-1-slides.py, add_code_block (lines 71-86). -/
def add_code_block (slide : Slide) (code : String)
    (left top width height : Int) : Slide :=
  let shape : Element :=
    { kind := .shape .roundedRectangle
      box := ⟨left, top, width, height⟩
      fill := some ZINC_800
      line := .backgroundFill }
  let tx : Element :=
    { kind := .textbox
      box := ⟨left + inch 200, top + inch 200, width - inch 400, height - inch 400⟩
      wordWrap := some false
      paras := [{ text := code, size := some 14, fontName := some "Menlo"
                  color := some ZINC_200 }] }
  ⟨slide.elements ++ [shape, tx]⟩

/-- create-video-1-slides.py, add_bullet_point (lines 89-97); note the two
spaces between icon and text in the f-string. -/
def add_bullet_point (slide : Slide) (text : String) (left top : Int)
    (color : Color := WHITE) (icon : String := "") : Slide :=
  let e : Element :=
    { kind := .textbox
      box := ⟨left, top, inch 10000, inch 600⟩
      paras := [{ text := if icon = "" then text else icon ++ "  " ++ text
                  size := some 28, color := some color }] }
  ⟨slide.elements ++ [e]⟩

end V1

namespace V2

/-- create-video-2-slides.py, add_dark_slide (lines 33-44). -/
def add_dark_slide (prs : Pres) : Pres :=
  let bg : Element :=
    { kind := .shape .rectangle
      box := ⟨0, 0, prs.slideWidth, prs.slideHeight⟩
      fill := some DARK_BG
      line := .backgroundFill }
  { prs with slides := prs.slides ++ [⟨[bg]⟩] }

/-- create-video-2-slides.py, add_title (lines 47-58). -/
def add_title (slide : Slide) (text : String) (top : Int := inch 2500)
    (font_size : Nat := 60) (color : Color := WHITE) : Slide :=
  let e : Element :=
    { kind := .textbox
      box := ⟨inch 500, top, inch 12333, inch 1500⟩
      wordWrap := some true
      paras := [{ text := text, size := some font_size, bold := true
                  color := some color, align := some .center }] }
  ⟨slide.elements ++ [e]⟩

/-- create-video-2-slides.py, add_subtitle (lines 61-71). -/
def add_subtitle (slide : Slide) (text : String) (top : Int := inch 4000)
    (font_size : Nat := 32) (color : Color := GRAY) : Slide :=
  let e : Element :=
    { kind := .textbox
      box := ⟨inch 1000, top, inch 11333, inch 1000⟩
      wordWrap := some true
      paras := [{ text := text, size := some font_size
                  color := some color, align := some .center }] }
  ⟨slide.elements ++ [e]⟩

/-- create-video-2-slides.py, add_code_block (lines 74-89). -/
def add_code_block (slide : Slide) (code : String)
    (left top width height : Int) : Slide :=
  let shape : Element :=
    { kind := .shape .roundedRectangle
      box := ⟨left, top, width, height⟩
      fill := some ZINC_800
      line := .backgroundFill }
  let tx : Element :=
    { kind := .textbox
      box := ⟨left + inch 200, top + inch 200, width - inch 400, height - inch 400⟩
      wordWrap := some false
      paras := [{ text := code, size := some 14, fontName := some "Menlo"
                  color := some ZINC_200 }] }
  ⟨slide.elements ++ [shape, tx]⟩

/-- create-video-2-slides.py, add_bullet_point (lines 92-100); two spaces
between icon and text. -/
def add_bullet_point (slide : Slide) (text : String) (left top : Int)
    (color : Color := WHITE) (icon : String := "") : Slide :=
  let e : Element :=
    { kind := .textbox
      box := ⟨left, top, inch 10000, inch 600⟩
      paras := [{ text := if icon = "" then text else icon ++ "  " ++ text
                  size := some 28, color := some color }] }
  ⟨slide.elements ++ [e]⟩

/-- create-video-2-slides.py, add_service_box (lines 103-124): the labeled
box composite (filled rounded rectangle plus a two-paragraph text block). -/
def add_service_box (slide : Slide) (nm description : String) (color : Color)
    (left top : Int) (width : Int := inch 3500)
    (height : Int := inch 2500) : Slide :=
  let box : Element :=
    { kind := .shape .roundedRectangle
      box := ⟨left, top, width, height⟩
      fill := some color
      line := .backgroundFill }
  let tx : Element :=
    { kind := .textbox
      box := ⟨left + inch 200, top + inch 300, width - inch 400, height - inch 400⟩
      wordWrap := some true
      paras := [{ text := nm, size := some 24, bold := true
                  color := some WHITE, align := some .center },
                { text := "\n" ++ description, size := some 16
                  color := some ZINC_200, align := some .center }] }
  ⟨slide.elements ++ [box, tx]⟩

end V2

namespace V3

/-- create-video-3-slides.py, add_dark_slide (lines 40-53). -/
def add_dark_slide (prs : Pres) : Pres :=
  let bg : Element :=
    { kind := .shape .rectangle
      box := ⟨0, 0, prs.slideWidth, prs.slideHeight⟩
      fill := some DARK_BG
      line := .backgroundFill }
  { prs with slides := prs.slides ++ [⟨[bg]⟩] }

/-- create-video-3-slides.py, add_title (lines 56-70). -/
def add_title (slide : Slide) (text : String) (top : Int := inch 500)
    (font_size : Nat := 54) (color : Color := WHITE) : Slide :=
  let e : Element :=
    { kind := .textbox
      box := ⟨inch 500, top, inch 12330, inch 1000⟩
      wordWrap := some true
      paras := [{ text := text, size := some font_size, bold := true
                  color := some color, align := some .center }] }
  ⟨slide.elements ++ [e]⟩

/-- create-video-3-slides.py, add_subtitle (lines 73-86). -/
def add_subtitle (slide : Slide) (text : String) (top : Int := inch 1500)
    (font_size : Nat := 28) (color : Color := GRAY) : Slide :=
  let e : Element :=
    { kind := .textbox
      box := ⟨inch 500, top, inch 12330, inch 1000⟩
      wordWrap := some true
      paras := [{ text := text, size := some font_size
                  color := some color, align := some .center }] }
  ⟨slide.elements ++ [e]⟩

/-- create-video-3-slides.py, add_bullet_point (lines 89-99); a single space
between bullet and text. -/
def add_bullet_point (slide : Slide) (text : String) (left top : Int)
    (color : Color := WHITE) (bullet : String := "") : Slide :=
  let e : Element :=
    { kind := .textbox
      box := ⟨left, top, inch 10000, inch 500⟩
      paras := [{ text := if bullet = "" then text else bullet ++ " " ++ text
                  size := some 24, color := some color }] }
  ⟨slide.elements ++ [e]⟩

/-- create-video-3-slides.py, add_code_block (lines 102-116): a single filled
text box, with no separate backing shape. -/
def add_code_block (slide : Slide) (code : String)
    (left top width height : Int) (font_size : Nat := 14) : Slide :=
  let tx : Element :=
    { kind := .textbox
      box := ⟨left, top, width, height⟩
      fill := some ZINC_800
      wordWrap := some false
      paras := [{ text := code, size := some font_size
                  color := some GREEN_200, fontName := some "Menlo" }] }
  ⟨slide.elements ++ [tx]⟩

end V3

namespace V4

/-- create-video-4-slides.py, add_dark_slide (lines 36-49). -/
def add_dark_slide (prs : Pres) : Pres :=
  let bg : Element :=
    { kind := .shape .rectangle
      box := ⟨0, 0, prs.slideWidth, prs.slideHeight⟩
      fill := some DARK_BG
      line := .backgroundFill }
  { prs with slides := prs.slides ++ [⟨[bg]⟩] }

/-- create-video-4-slides.py, add_title (lines 52-66). -/
def add_title (slide : Slide) (text : String) (top : Int := inch 500)
    (font_size : Nat := 54) (color : Color := WHITE) : Slide :=
  let e : Element :=
    { kind := .textbox
      box := ⟨inch 500, top, inch 12330, inch 1000⟩
      wordWrap := some true
      paras := [{ text := text, size := some font_size, bold := true
                  color := some color, align := some .center }] }
  ⟨slide.elements ++ [e]⟩

/-- create-video-4-slides.py, add_subtitle (lines 69-82). -/
def add_subtitle (slide : Slide) (text : String) (top : Int := inch 1500)
    (font_size : Nat := 28) (color : Color := GRAY) : Slide :=
  let e : Element :=
    { kind := .textbox
      box := ⟨inch 500, top, inch 12330, inch 1000⟩
      wordWrap := some true
      paras := [{ text := text, size := some font_size
                  color := some color, align := some .center }] }
  ⟨slide.elements ++ [e]⟩

/-- create-video-4-slides.py, add_bullet_point (lines 85-95); a single space
between bullet and text. -/
def add_bullet_point (slide : Slide) (text : String) (left top : Int)
    (color : Color := WHITE) (bullet : String := "") : Slide :=
  let e : Element :=
    { kind := .textbox
      box := ⟨left, top, inch 10000, inch 500⟩
      paras := [{ text := if bullet = "" then text else bullet ++ " " ++ text
                  size := some 24, color := some color }] }
  ⟨slide.elements ++ [e]⟩

/-- create-video-4-slides.py, add_code_block (lines 98-116): the backing
shape is MSO_SHAPE.RECTANGLE (square corners) and the text box is inset by
0.2 horizontally and 0.15 vertically. -/
def add_code_block (slide : Slide) (code : String)
    (left top width height : Int) (font_size : Nat := 14) : Slide :=
  let shape : Element :=
    { kind := .shape .rectangle
      box := ⟨left, top, width, height⟩
      fill := some ZINC_800
      line := .backgroundFill }
  let tx : Element :=
    { kind := .textbox
      box := ⟨left + inch 200, top + inch 150, width - inch 400, height - inch 300⟩
      wordWrap := some false
      paras := [{ text := code, size := some font_size
                  color := some ZINC_200, fontName := some "Menlo" }] }
  ⟨slide.elements ++ [shape, tx]⟩

/-- create-video-4-slides.py, add_box (lines 119-135): a colored rounded
rectangle carrying its own centered bold text frame. -/
def add_box (slide : Slide) (text : String) (left top width height : Int)
    (bg_color : Color) (text_color : Color := WHITE)
    (font_size : Nat := 20) : Slide :=
  let e : Element :=
    { kind := .shape .roundedRectangle
      box := ⟨left, top, width, height⟩
      fill := some bg_color
      line := .backgroundFill
      wordWrap := some true
      paras := [{ text := text, size := some font_size, bold := true
                  color := some text_color, align := some .center }] }
  ⟨slide.elements ++ [e]⟩

/-- create-video-4-slides.py, add_arrow (lines 138-147): a straight connector
whose outline is colored; its box records the start point and the extent to
the end point. -/
def add_arrow (slide : Slide) (start_left start_top end_left end_top : Int)
    (color : Color := GRAY) : Slide :=
  let e : Element :=
    { kind := .connector
      box := ⟨start_left, start_top, end_left - start_left, end_top - start_top⟩
      line := .colored color }
  ⟨slide.elements ++ [e]⟩

end V4

/-- One builder call from a content manifest: either a new dark slide or a
composite applied to the most recently created slide (the handle the script
holds between add_dark_slide calls). -/
inductive BuildOp where
  | darkSlide1
  | darkSlide3
  | title1 (text : String) (top : Int) (fs : Nat) (c : Color)
  | subtitle1 (text : String) (top : Int) (fs : Nat) (c : Color)
  | codeBlock1 (code : String) (l t w h : Int)
  | bullet1 (text : String) (l t : Int) (c : Color) (icon : String)
  | serviceBox2 (nm ds : String) (c : Color) (l t w h : Int)
  | title3 (text : String) (top : Int) (fs : Nat) (c : Color)
  | subtitle3 (text : String) (top : Int) (fs : Nat) (c : Color)
  | bullet3 (text : String) (l t : Int) (c : Color) (bullet : String)
  | codeBlock3 (code : String) (l t w h : Int) (fs : Nat)
  | codeBlock4 (code : String) (l t w h : Int) (fs : Nat)
  | box4 (text : String) (l t w h : Int) (bg tc : Color) (fs : Nat)
  | arrow4 (sl st el et : Int) (c : Color)
deriving DecidableEq

/-- Apply f to the most recently created slide, leaving the others alone. -/
def updateLast (f : Slide → Slide) : List Slide → List Slide
  | [] => []
  | [s] => [f s]
  | s :: t :: rest => s :: updateLast f (t :: rest)

/-- Interpret one builder call. -/
def applyOp (prs : Pres) (op : BuildOp) : Pres :=
  match op with
  | .darkSlide1 => V1.add_dark_slide prs
  | .darkSlide3 => V3.add_dark_slide prs
  | .title1 text top fs c =>
      { prs with slides := updateLast (fun s => V1.add_title s text top fs c) prs.slides }
  | .subtitle1 text top fs c =>
      { prs with slides := updateLast (fun s => V1.add_subtitle s text top fs c) prs.slides }
  | .codeBlock1 code l t w h =>
      { prs with slides := updateLast (fun s => V1.add_code_block s code l t w h) prs.slides }
  | .bullet1 text l t c icon =>
      { prs with slides := updateLast (fun s => V1.add_bullet_point s text l t c icon) prs.slides }
  | .serviceBox2 nm ds c l t w h =>
      { prs with slides := updateLast (fun s => V2.add_service_box s nm ds c l t w h) prs.slides }
  | .title3 text top fs c =>
      { prs with slides := updateLast (fun s => V3.add_title s text top fs c) prs.slides }
  | .subtitle3 text top fs c =>
      { prs with slides := updateLast (fun s => V3.add_subtitle s text top fs c) prs.slides }
  | .bullet3 text l t c b =>
      { prs with slides := updateLast (fun s => V3.add_bullet_point s text l t c b) prs.slides }
  | .codeBlock3 code l t w h fs =>
      { prs with slides := updateLast (fun s => V3.add_code_block s code l t w h fs) prs.slides }
  | .codeBlock4 code l t w h fs =>
      { prs with slides := updateLast (fun s => V4.add_code_block s code l t w h fs) prs.slides }
  | .box4 text l t w h bg tc fs =>
      { prs with slides := updateLast (fun s => V4.add_box s text l t w h bg tc fs) prs.slides }
  | .arrow4 sl st el et c =>
      { prs with slides := updateLast (fun s => V4.add_arrow s sl st el et c) prs.slides }

/-- Run a whole sequence of builder calls. -/
def runOps (prs : Pres) (ops : List BuildOp) : Pres :=
  ops.foldl applyOp prs

/-- Whether an op is an addSlide (add_dark_slide) call. -/
def isSlideOp : BuildOp → Bool
  | .darkSlide1 => true
  | .darkSlide3 => true
  | _ => false

/-- The number of addSlide calls in a manifest. -/
def countSlides (ops : List BuildOp) : Nat :=
  (ops.filter isSlideOp).length

/-- The full-canvas dark background element add_dark_slide creates. -/
def bgElement (W H : Int) : Element :=
  { kind := .shape .rectangle
    box := ⟨0, 0, W, H⟩
    fill := some DARK_BG
    line := .backgroundFill }

/-- A shape element never carries a visible outline: if it was created with
add_shape then its line fill was set to background. -/
def LineSafe (e : Element) : Prop :=
  isShapeElem e = true → e.line = LineStyle.backgroundFill

/-- The invariant the build maintains: canvas dimensions are fixed, every
slide starts with the full-canvas background, and no shape has a visible
outline. -/
def Inv (W H : Int) (p : Pres) : Prop :=
  p.slideWidth = W ∧ p.slideHeight = H ∧
  (∀ s ∈ p.slides, s.elements.head? = some (bgElement W H)) ∧
  (∀ s ∈ p.slides, ∀ e ∈ s.elements, LineSafe e)

/-- Modelled from the spec: the error taxonomy of section 7; only the
ConfigurationError case (unknown theme color key) is needed here, and it
carries the offending key. -/
inductive BuildError where
  | configurationError (badKey : String)
deriving DecidableEq

/-- Modelled from the spec: the Theme mapping from semantic color names to
color values (section 3), populated with the palette the scripts share as
module-level constants. -/
def themePalette : List (String × Color) :=
  [("background", DARK_BG), ("white", WHITE), ("red", RED),
   ("yellow", YELLOW), ("green", GREEN), ("blue", BLUE), ("gray", GRAY)]

/-- Modelled from the spec: resolveColor(name) returns a color or fails with
a ConfigurationError identifying the unknown key (section 4.1); no such
function exists in the scripts, which reference color constants directly. -/
def resolveColor (nm : String) : Except BuildError Color :=
  match themePalette.lookup nm with
  | some c => Except.ok c
  | none => Except.error (BuildError.configurationError nm)

/-- Modelled from the spec: a build step that resolves a color by name and,
on success, lets a continuation extend the presentation; on an unknown name
the ConfigurationError propagates and the presentation is untouched. -/
def applyWithColor (prs : Pres) (nm : String) (k : Color → Pres → Pres) :
    Except BuildError Pres :=
  match resolveColor nm with
  | Except.ok c => Except.ok (k c prs)
  | Except.error e => Except.error e

/-- The values compared when two decks are checked for structural identity:
kind, geometry, fill, outline, word-wrap and all paragraph data. -/
def elemSig (e : Element) :
    ElemKind × Box × Option Color × LineStyle × Option Bool × List Para :=
  (e.kind, e.box, e.fill, e.line, e.wordWrap, e.paras)

/-- Structural identity of two presentations: same slide count, same
per-slide element count, and the same text, geometry and color values in
every element. -/
def structIdentical (p q : Pres) : Prop :=
  p.slides.length = q.slides.length ∧
  p.slides.map (fun s => s.elements.length)
    = q.slides.map (fun s => s.elements.length) ∧
  p.slides.map (fun s => s.elements.map elemSig)
    = q.slides.map (fun s => s.elements.map elemSig)

/-- inner lies strictly within outer on all four sides. -/
def strictlyInside (inner outer : Box) : Prop :=
  outer.left < inner.left ∧
  inner.left + inner.width < outer.left + outer.width ∧
  outer.top < inner.top ∧
  inner.top + inner.height < outer.top + outer.height

theorem updateLast_length (f : Slide → Slide) (l : List Slide) :
    (updateLast f l).length = l.length := by
  induction l with
  | nil => rfl
  | cons a l ih =>
    cases l with
    | nil => rfl
    | cons b l2 => simpa [updateLast] using ih

theorem mem_updateLast {f : Slide → Slide} {l : List Slide} {s : Slide}
    (h : s ∈ updateLast f l) : s ∈ l ∨ ∃ t, t ∈ l ∧ s = f t := by
  induction l with
  | nil => simp [updateLast] at h
  | cons a l ih =>
    cases l with
    | nil =>
      simp only [updateLast, List.mem_singleton] at h
      exact Or.inr ⟨a, List.mem_singleton.mpr rfl, h⟩
    | cons b l2 =>
      simp only [updateLast, List.mem_cons] at h
      rcases h with h | h
      · exact Or.inl (by simp [h])
      · rcases ih h with h2 | ⟨t, ht, rfl⟩
        · exact Or.inl (List.mem_cons_of_mem _ h2)
        · exact Or.inr ⟨t, List.mem_cons_of_mem _ ht, rfl⟩

theorem inv_applyLast {W H : Int} {p : Pres} {f : Slide → Slide}
    (hf : ∀ s, ∃ es, (f s).elements = s.elements ++ es ∧ ∀ e ∈ es, LineSafe e)
    (h : Inv W H p) : Inv W H { p with slides := updateLast f p.slides } := by
  obtain ⟨hW, hH, hbg, hline⟩ := h
  refine ⟨hW, hH, ?_, ?_⟩
  · intro s hs
    rcases mem_updateLast hs with hs2 | ⟨t, ht, rfl⟩
    · exact hbg s hs2
    · obtain ⟨es, hes, -⟩ := hf t
      have hbt := hbg t ht
      rw [hes]
      cases hel : t.elements with
      | nil => rw [hel] at hbt; simp at hbt
      | cons a l =>
        rw [hel] at hbt
        simp only [List.head?_cons, Option.some.injEq] at hbt
        simpa using hbt
  · intro s hs e he
    rcases mem_updateLast hs with hs2 | ⟨t, ht, rfl⟩
    · exact hline s hs2 e he
    · obtain ⟨es, hes, hok⟩ := hf t
      rw [hes] at he
      rcases List.mem_append.mp he with h2 | h2
      · exact hline t ht e h2
      · exact hok e h2

theorem inv_addDark {W H : Int} {p : Pres} (h : Inv W H p) :
    Inv W H { p with slides := p.slides ++ [⟨[bgElement p.slideWidth p.slideHeight]⟩] } := by
  obtain ⟨hW, hH, hbg, hline⟩ := h
  subst hW; subst hH
  refine ⟨rfl, rfl, ?_, ?_⟩
  · intro s hs
    rcases List.mem_append.mp hs with h2 | h2
    · exact hbg s h2
    · rw [List.mem_singleton.mp h2]
      rfl
  · intro s hs e he
    rcases List.mem_append.mp hs with h2 | h2
    · exact hline s h2 e he
    · rw [List.mem_singleton.mp h2] at he
      simp only [List.mem_singleton] at he
      subst he
      intro _
      rfl

theorem applyOp_inv {W H : Int} {p : Pres} (op : BuildOp)
    (h : Inv W H p) : Inv W H (applyOp p op) := by
  cases op with
  | darkSlide1 => exact inv_addDark h
  | darkSlide3 => exact inv_addDark h
  | title1 text top fs c =>
    exact inv_applyLast (fun s => ⟨_, rfl, by simp [LineSafe, isShapeElem]⟩) h
  | subtitle1 text top fs c =>
    exact inv_applyLast (fun s => ⟨_, rfl, by simp [LineSafe, isShapeElem]⟩) h
  | codeBlock1 code l t w h2 =>
    exact inv_applyLast (fun s => ⟨_, rfl, by simp [LineSafe, isShapeElem]⟩) h
  | bullet1 text l t c icon =>
    exact inv_applyLast (fun s => ⟨_, rfl, by simp [LineSafe, isShapeElem]⟩) h
  | serviceBox2 nm ds c l t w h2 =>
    exact inv_applyLast (fun s => ⟨_, rfl, by simp [LineSafe, isShapeElem]⟩) h
  | title3 text top fs c =>
    exact inv_applyLast (fun s => ⟨_, rfl, by simp [LineSafe, isShapeElem]⟩) h
  | subtitle3 text top fs c =>
    exact inv_applyLast (fun s => ⟨_, rfl, by simp [LineSafe, isShapeElem]⟩) h
  | bullet3 text l t c b =>
    exact inv_applyLast (fun s => ⟨_, rfl, by simp [LineSafe, isShapeElem]⟩) h
  | codeBlock3 code l t w h2 fs =>
    exact inv_applyLast (fun s => ⟨_, rfl, by simp [LineSafe, isShapeElem]⟩) h
  | codeBlock4 code l t w h2 fs =>
    exact inv_applyLast (fun s => ⟨_, rfl, by simp [LineSafe, isShapeElem]⟩) h
  | box4 text l t w h2 bg tc fs =>
    exact inv_applyLast (fun s => ⟨_, rfl, by simp [LineSafe, isShapeElem]⟩) h
  | arrow4 sl st el et c =>
    exact inv_applyLast (fun s => ⟨_, rfl, by simp [LineSafe, isShapeElem]⟩) h

theorem runOps_inv {W H : Int} (ops : List BuildOp) :
    ∀ p : Pres, Inv W H p → Inv W H (runOps p ops) := by
  induction ops with
  | nil => exact fun p h => h
  | cons op ops ih =>
    intro p h
    exact ih (applyOp p op) (applyOp_inv op h)

theorem applyOp_length {p : Pres} (op : BuildOp) :
    (applyOp p op).slides.length
      = p.slides.length + (if isSlideOp op then 1 else 0) := by
  cases op <;>
    simp [applyOp, isSlideOp, V1.add_dark_slide, V3.add_dark_slide,
      updateLast_length]

theorem runOps_length (ops : List BuildOp) :
    ∀ p : Pres, (runOps p ops).slides.length = p.slides.length + countSlides ops := by
  induction ops with
  | nil => intro p; simp [runOps, countSlides]
  | cons op ops ih =>
    intro p
    have h1 : runOps p (op :: ops) = runOps (applyOp p op) ops := rfl
    rw [h1, ih (applyOp p op), applyOp_length]
    by_cases h : isSlideOp op <;> simp [countSlides, h] <;> omega

theorem appended_mk (s : Slide) (es : List Element) :
    appended s ⟨s.elements ++ es⟩ = es := by
  simp [appended]

/-- C1: for every Deck built with N calls to addSlide (add_dark_slide),
interleaved with any composite builder calls, the resulting Deck has exactly
N Slides, and every Slide's Element at index 0 is a shape covering the full
canvas at position (0,0) with the canvas width and height, filled with
Theme.background (RGB 24,24,27). -/
theorem deck_slide_count_and_dark_background (W H : Int) (ops : List BuildOp) :
    (runOps ⟨W, H, []⟩ ops).slides.length = countSlides ops ∧
    ∀ s ∈ (runOps ⟨W, H, []⟩ ops).slides,
      s.elements.head? = some (bgElement W H) := by
  have h : Inv W H (runOps ⟨W, H, []⟩ ops) :=
    runOps_inv ops ⟨W, H, []⟩ ⟨rfl, rfl, by simp, by simp⟩
  refine ⟨?_, h.2.2.1⟩
  have h2 := runOps_length ops ⟨W, H, []⟩
  simpa using h2

/-- C1 witness: a one-op build on the 13.333 by 7.5 canvas has one slide
whose first element is the full-canvas dark background. -/
theorem deck_slide_count_witness :
    (runOps ⟨inch 13333, inch 7500, []⟩ [BuildOp.darkSlide1]).slides.length = 1 ∧
    Slide.mk [bgElement (inch 13333) (inch 7500)]
      ∈ (runOps ⟨inch 13333, inch 7500, []⟩ [BuildOp.darkSlide1]).slides ∧
    (Slide.mk [bgElement (inch 13333) (inch 7500)]).elements.head?
      = some (bgElement (inch 13333) (inch 7500)) :=
  ⟨(deck_slide_count_and_dark_background (inch 13333) (inch 7500) [BuildOp.darkSlide1]).1,
   by decide,
   (deck_slide_count_and_dark_background (inch 13333) (inch 7500) [BuildOp.darkSlide1]).2
     (Slide.mk [bgElement (inch 13333) (inch 7500)]) (by decide)⟩

/-- C2: in all four scripts, the text element created by add_code_block
stores exactly the input code string (no trimming, reflow or re-indentation)
and has word-wrap disabled; the backing shape, where one exists, carries no
text. -/
theorem code_block_text_verbatim (s : Slide) (code : String)
    (l t w h : Int) (fs : Nat) :
    (appended s (V1.add_code_block s code l t w h)).map
        (fun e => (e.paras.map Para.text, e.wordWrap))
      = [([], none), ([code], some false)] ∧
    (appended s (V2.add_code_block s code l t w h)).map
        (fun e => (e.paras.map Para.text, e.wordWrap))
      = [([], none), ([code], some false)] ∧
    (appended s (V3.add_code_block s code l t w h fs)).map
        (fun e => (e.paras.map Para.text, e.wordWrap))
      = [([code], some false)] ∧
    (appended s (V4.add_code_block s code l t w h fs)).map
        (fun e => (e.paras.map Para.text, e.wordWrap))
      = [([], none), ([code], some false)] := by
  refine ⟨?_, ?_, ?_, ?_⟩ <;>
    simp [appended_mk, V1.add_code_block, V2.add_code_block,
      V3.add_code_block, V4.add_code_block]

/-- C3 counterexample: add_bullet_point does not enable word-wrap on the
text element it creates; the flag is left unset in every script. -/
theorem bullet_point_wordwrap_left_unset :
    (appended ⟨[]⟩ (V1.add_bullet_point ⟨[]⟩ "hello" 0 0 WHITE "")).map
        Element.wordWrap = [none] ∧
    (appended ⟨[]⟩ (V3.add_bullet_point ⟨[]⟩ "hello" 0 0 WHITE "")).map
        Element.wordWrap = [none] ∧
    (none : Option Bool) ≠ some true := by
  refine ⟨?_, ?_, by simp⟩ <;>
    simp [appended, V1.add_bullet_point, V3.add_bullet_point]

/-- C3 amended: addTitle, addSubtitle and the labeled-box builders
(add_service_box, add_box) enable word-wrap on the text element they create;
add_bullet_point leaves the word-wrap flag unset, inheriting the rendering
default. -/
theorem composite_wordwrap_policy (s : Slide) (text nm ds : String)
    (top l t w h : Int) (fs : Nat) (c c2 : Color) (icon : String) :
    (appended s (V1.add_title s text top fs c)).map Element.wordWrap = [some true] ∧
    (appended s (V2.add_title s text top fs c)).map Element.wordWrap = [some true] ∧
    (appended s (V3.add_title s text top fs c)).map Element.wordWrap = [some true] ∧
    (appended s (V4.add_title s text top fs c)).map Element.wordWrap = [some true] ∧
    (appended s (V1.add_subtitle s text top fs c)).map Element.wordWrap = [some true] ∧
    (appended s (V2.add_subtitle s text top fs c)).map Element.wordWrap = [some true] ∧
    (appended s (V3.add_subtitle s text top fs c)).map Element.wordWrap = [some true] ∧
    (appended s (V4.add_subtitle s text top fs c)).map Element.wordWrap = [some true] ∧
    (appended s (V2.add_service_box s nm ds c l t w h)).map Element.wordWrap
      = [none, some true] ∧
    (appended s (V4.add_box s text l t w h c c2 fs)).map Element.wordWrap
      = [some true] ∧
    (appended s (V1.add_bullet_point s text l t c icon)).map Element.wordWrap = [none] ∧
    (appended s (V2.add_bullet_point s text l t c icon)).map Element.wordWrap = [none] ∧
    (appended s (V3.add_bullet_point s text l t c icon)).map Element.wordWrap = [none] ∧
    (appended s (V4.add_bullet_point s text l t c icon)).map Element.wordWrap = [none] := by
  refine ⟨?_, ?_, ?_, ?_, ?_, ?_, ?_, ?_, ?_, ?_, ?_, ?_, ?_, ?_⟩ <;>
    simp [appended_mk, V1.add_title, V2.add_title, V3.add_title, V4.add_title,
      V1.add_subtitle, V2.add_subtitle, V3.add_subtitle, V4.add_subtitle,
      V2.add_service_box, V4.add_box, V1.add_bullet_point, V2.add_bullet_point,
      V3.add_bullet_point, V4.add_bullet_point]

/-- C4 counterexample: in script 3 an add_code_block call appends one
element, not two; and in script 4 the backing shape is a square-cornered
rectangle, not a rounded rectangle. -/
theorem code_block_element_structure_cex :
    (appended ⟨[]⟩ (V3.add_code_block ⟨[]⟩ "x" 0 0 (inch 1000) (inch 1000) 14)).length
      = 1 ∧
    (1 : Nat) ≠ 2 ∧
    (appended ⟨[]⟩ (V4.add_code_block ⟨[]⟩ "x" 0 0 (inch 1000) (inch 1000) 14)).map
        Element.kind
      = [ElemKind.shape ShapeKind.rectangle, ElemKind.textbox] ∧
    ShapeKind.rectangle ≠ ShapeKind.roundedRectangle := by
  refine ⟨?_, by decide, ?_, by decide⟩ <;>
    simp [appended, V3.add_code_block, V4.add_code_block]

/-- C4 amended: in scripts 1 and 2, add_code_block appends exactly two
elements, first a filled rounded-rectangle backing shape and then an inset
text block; in script 4 it appends two elements but the backing shape is a
square-cornered rectangle; in script 3 it appends a single filled text box
with no separate backing shape. -/
theorem code_block_element_structure (s : Slide) (code : String)
    (l t w h : Int) (fs : Nat) :
    (appended s (V1.add_code_block s code l t w h)).map
        (fun e => (e.kind, e.fill, e.wordWrap))
      = [(ElemKind.shape ShapeKind.roundedRectangle, some ZINC_800, none),
         (ElemKind.textbox, none, some false)] ∧
    (appended s (V2.add_code_block s code l t w h)).map
        (fun e => (e.kind, e.fill, e.wordWrap))
      = [(ElemKind.shape ShapeKind.roundedRectangle, some ZINC_800, none),
         (ElemKind.textbox, none, some false)] ∧
    (appended s (V4.add_code_block s code l t w h fs)).map
        (fun e => (e.kind, e.fill, e.wordWrap))
      = [(ElemKind.shape ShapeKind.rectangle, some ZINC_800, none),
         (ElemKind.textbox, none, some false)] ∧
    (appended s (V3.add_code_block s code l t w h fs)).map
        (fun e => (e.kind, e.fill, e.wordWrap))
      = [(ElemKind.textbox, some ZINC_800, some false)] := by
  refine ⟨?_, ?_, ?_, ?_⟩ <;>
    simp [appended_mk, V1.add_code_block, V2.add_code_block,
      V3.add_code_block, V4.add_code_block]

/-- C5: for every unknown color name, resolveColor fails with a
ConfigurationError carrying the bad key, never returns a color, and a build
step that resolves a color leaves the presentation untouched when the name
is unknown (the error propagates instead of a mutated deck). -/
theorem resolveColor_unknown_fails_clean (nm : String) (prs : Pres)
    (k : Color → Pres → Pres) (h : themePalette.lookup nm = none) :
    resolveColor nm = Except.error (BuildError.configurationError nm) ∧
    (∀ c : Color, resolveColor nm ≠ Except.ok c) ∧
    applyWithColor prs nm k = Except.error (BuildError.configurationError nm) := by
  have h1 : resolveColor nm = Except.error (BuildError.configurationError nm) := by
    simp [resolveColor, h]
  exact ⟨h1, fun c hc => by simp [h1] at hc, by simp [applyWithColor, h1]⟩

/-- C5 witness: the name not-a-real-color is unknown, resolveColor rejects
it with a ConfigurationError naming it, and the build step propagates the
error without touching the presentation. -/
theorem resolveColor_unknown_witness :
    themePalette.lookup "not-a-real-color" = none ∧
    resolveColor "not-a-real-color"
      = Except.error (BuildError.configurationError "not-a-real-color") ∧
    applyWithColor ⟨inch 13333, inch 7500, []⟩ "not-a-real-color" (fun _ p => p)
      = Except.error (BuildError.configurationError "not-a-real-color") :=
  ⟨by decide,
   (resolveColor_unknown_fails_clean "not-a-real-color" ⟨inch 13333, inch 7500, []⟩
     (fun _ p => p) (by decide)).1,
   (resolveColor_unknown_fails_clean "not-a-real-color" ⟨inch 13333, inch 7500, []⟩
     (fun _ p => p) (by decide)).2.2⟩

/-- C6: two runs of an identical sequence of builder calls produce
structurally identical Decks: the same slide count, the same per-slide
element count, and the same text, geometry and color values in every
element. -/
theorem identical_build_sequences_identical_decks (W H : Int)
    (ops : List BuildOp) (p1 p2 : Pres)
    (h1 : p1 = runOps ⟨W, H, []⟩ ops) (h2 : p2 = runOps ⟨W, H, []⟩ ops) :
    structIdentical p1 p2 := by
  subst h1
  subst h2
  exact ⟨rfl, rfl, rfl⟩

/-- C6 witness: two runs of a concrete two-call sequence are structurally
identical. -/
theorem identical_build_sequences_witness :
    structIdentical
      (runOps ⟨inch 13333, inch 7500, []⟩
        [BuildOp.darkSlide1, BuildOp.title1 "Hello" (inch 2800) 72 WHITE])
      (runOps ⟨inch 13333, inch 7500, []⟩
        [BuildOp.darkSlide1, BuildOp.title1 "Hello" (inch 2800) 72 WHITE]) :=
  identical_build_sequences_identical_decks (inch 13333) (inch 7500)
    [BuildOp.darkSlide1, BuildOp.title1 "Hello" (inch 2800) 72 WHITE] _ _ rfl rfl

/-- C7 counterexample: in script 1 a non-empty icon is separated from the
text by two spaces, not a single space. -/
theorem bullet_icon_separator_cex :
    (appended ⟨[]⟩ (V1.add_bullet_point ⟨[]⟩ "x" 0 0 WHITE "1.")).map
        (fun e => e.paras.map Para.text)
      = [["1.  x"]] ∧
    ("1.  x" : String) ≠ "1. x" := by
  constructor
  · simp [appended, V1.add_bullet_point]
  · decide

/-- C7 amended: with an empty icon the bullet element's text is the text
alone in all four scripts; with a non-empty icon scripts 1 and 2 separate
icon and text with two spaces while scripts 3 and 4 use a single space. -/
theorem bullet_point_text_format (s : Slide) (text : String) (l t : Int)
    (c : Color) (icon : String) :
    (icon = "" →
      (appended s (V1.add_bullet_point s text l t c icon)).map
          (fun e => e.paras.map Para.text) = [[text]] ∧
      (appended s (V2.add_bullet_point s text l t c icon)).map
          (fun e => e.paras.map Para.text) = [[text]] ∧
      (appended s (V3.add_bullet_point s text l t c icon)).map
          (fun e => e.paras.map Para.text) = [[text]] ∧
      (appended s (V4.add_bullet_point s text l t c icon)).map
          (fun e => e.paras.map Para.text) = [[text]]) ∧
    (icon ≠ "" →
      (appended s (V1.add_bullet_point s text l t c icon)).map
          (fun e => e.paras.map Para.text) = [[icon ++ "  " ++ text]] ∧
      (appended s (V2.add_bullet_point s text l t c icon)).map
          (fun e => e.paras.map Para.text) = [[icon ++ "  " ++ text]] ∧
      (appended s (V3.add_bullet_point s text l t c icon)).map
          (fun e => e.paras.map Para.text) = [[icon ++ " " ++ text]] ∧
      (appended s (V4.add_bullet_point s text l t c icon)).map
          (fun e => e.paras.map Para.text) = [[icon ++ " " ++ text]]) := by
  constructor
  · intro h
    subst h
    refine ⟨?_, ?_, ?_, ?_⟩ <;>
      simp [appended_mk, V1.add_bullet_point, V2.add_bullet_point,
        V3.add_bullet_point, V4.add_bullet_point]
  · intro h
    refine ⟨?_, ?_, ?_, ?_⟩ <;>
      simp [appended_mk, V1.add_bullet_point, V2.add_bullet_point,
        V3.add_bullet_point, V4.add_bullet_point, h]

/-- C7 witness: a concrete non-empty icon produces a two-space separator in
script 1 and a one-space separator in script 3. -/
theorem bullet_point_text_format_witness :
    (appended ⟨[]⟩ (V1.add_bullet_point ⟨[]⟩ "b" 0 0 WHITE "a")).map
        (fun e => e.paras.map Para.text) = [["a" ++ "  " ++ "b"]] ∧
    (appended ⟨[]⟩ (V3.add_bullet_point ⟨[]⟩ "b" 0 0 WHITE "a")).map
        (fun e => e.paras.map Para.text) = [["a" ++ " " ++ "b"]] :=
  ⟨((bullet_point_text_format ⟨[]⟩ "b" 0 0 WHITE "a").2 (by decide)).1,
   ((bullet_point_text_format ⟨[]⟩ "b" 0 0 WHITE "a").2 (by decide)).2.2.1⟩

/-- C8: every shape element created by any builder call in a build sequence
has its outline fill set to background; no builder produces a shape with a
visible border line. -/
theorem builder_shapes_no_outline (W H : Int) (ops : List BuildOp) :
    ∀ s ∈ (runOps ⟨W, H, []⟩ ops).slides, ∀ e ∈ s.elements,
      isShapeElem e = true → e.line = LineStyle.backgroundFill := by
  have h : Inv W H (runOps ⟨W, H, []⟩ ops) :=
    runOps_inv ops ⟨W, H, []⟩ ⟨rfl, rfl, by simp, by simp⟩
  exact h.2.2.2

/-- C8 witness: the background shape of a concretely built slide is a shape
element and its outline fill is background. -/
theorem builder_shapes_no_outline_witness :
    Slide.mk [bgElement (inch 13333) (inch 7500)]
      ∈ (runOps ⟨inch 13333, inch 7500, []⟩ [BuildOp.darkSlide1]).slides ∧
    bgElement (inch 13333) (inch 7500)
      ∈ (Slide.mk [bgElement (inch 13333) (inch 7500)]).elements ∧
    isShapeElem (bgElement (inch 13333) (inch 7500)) = true ∧
    (bgElement (inch 13333) (inch 7500)).line = LineStyle.backgroundFill :=
  ⟨by decide, by decide, by decide,
   builder_shapes_no_outline (inch 13333) (inch 7500) [BuildOp.darkSlide1]
     (Slide.mk [bgElement (inch 13333) (inch 7500)]) (by decide)
     (bgElement (inch 13333) (inch 7500)) (by decide) (by decide)⟩

/-- C9: the horizontal extent (left offset and width) of the text element
created by add_title and add_subtitle is a fixed constant of each builder,
the same for every text, vertical position, font size and color argument. -/
theorem title_subtitle_fixed_horizontal_extent (s : Slide) (text : String)
    (top : Int) (fs : Nat) (c : Color) :
    (appended s (V1.add_title s text top fs c)).map
        (fun e => (e.box.left, e.box.width)) = [(inch 500, inch 12333)] ∧
    (appended s (V1.add_subtitle s text top fs c)).map
        (fun e => (e.box.left, e.box.width)) = [(inch 1000, inch 11333)] ∧
    (appended s (V2.add_title s text top fs c)).map
        (fun e => (e.box.left, e.box.width)) = [(inch 500, inch 12333)] ∧
    (appended s (V2.add_subtitle s text top fs c)).map
        (fun e => (e.box.left, e.box.width)) = [(inch 1000, inch 11333)] ∧
    (appended s (V3.add_title s text top fs c)).map
        (fun e => (e.box.left, e.box.width)) = [(inch 500, inch 12330)] ∧
    (appended s (V3.add_subtitle s text top fs c)).map
        (fun e => (e.box.left, e.box.width)) = [(inch 500, inch 12330)] ∧
    (appended s (V4.add_title s text top fs c)).map
        (fun e => (e.box.left, e.box.width)) = [(inch 500, inch 12330)] ∧
    (appended s (V4.add_subtitle s text top fs c)).map
        (fun e => (e.box.left, e.box.width)) = [(inch 500, inch 12330)] := by
  refine ⟨?_, ?_, ?_, ?_, ?_, ?_, ?_, ?_⟩ <;>
    simp [appended_mk, V1.add_title, V2.add_title, V3.add_title, V4.add_title,
      V1.add_subtitle, V2.add_subtitle, V3.add_subtitle, V4.add_subtitle]

/-- C10: for the code-block builders that create a backing shape (scripts 1
and 4), when the box is wider and taller than 0.4 canvas units the inset
text element's box lies strictly within the backing shape's box on all four
sides and has positive width and height. -/
theorem code_block_inset_strictly_inside (s : Slide) (code : String)
    (l t w h : Int) (fs : Nat) (hw : inch 400 < w) (hh : inch 400 < h) :
    (appended s (V1.add_code_block s code l t w h)).map Element.box
      = [⟨l, t, w, h⟩,
         ⟨l + inch 200, t + inch 200, w - inch 400, h - inch 400⟩] ∧
    strictlyInside ⟨l + inch 200, t + inch 200, w - inch 400, h - inch 400⟩
      ⟨l, t, w, h⟩ ∧
    0 < w - inch 400 ∧ 0 < h - inch 400 ∧
    (appended s (V4.add_code_block s code l t w h fs)).map Element.box
      = [⟨l, t, w, h⟩,
         ⟨l + inch 200, t + inch 150, w - inch 400, h - inch 300⟩] ∧
    strictlyInside ⟨l + inch 200, t + inch 150, w - inch 400, h - inch 300⟩
      ⟨l, t, w, h⟩ ∧
    0 < h - inch 300 := by
  simp only [inch] at hw hh
  refine ⟨?_, ?_, ?_, ?_, ?_, ?_, ?_⟩
  · simp [appended_mk, V1.add_code_block]
  · simp only [strictlyInside, inch]
    omega
  · simp only [inch]
    omega
  · simp only [inch]
    omega
  · simp [appended_mk, V4.add_code_block]
  · simp only [strictlyInside, inch]
    omega
  · simp only [inch]
    omega

/-- C10 witness: a concrete 1.0 by 1.0 box satisfies the hypotheses and its
inset text box lies strictly inside the backing shape. -/
theorem code_block_inset_witness :
    inch 400 < (1000 : Int) ∧
    (appended ⟨[]⟩ (V1.add_code_block ⟨[]⟩ "c" 0 0 1000 1000)).map Element.box
      = [⟨0, 0, 1000, 1000⟩,
         ⟨0 + inch 200, 0 + inch 200, 1000 - inch 400, 1000 - inch 400⟩] ∧
    strictlyInside ⟨0 + inch 200, 0 + inch 200, 1000 - inch 400, 1000 - inch 400⟩
      ⟨0, 0, 1000, 1000⟩ :=
  ⟨by decide,
   (code_block_inset_strictly_inside ⟨[]⟩ "c" 0 0 1000 1000 14
     (by decide) (by decide)).1,
   (code_block_inset_strictly_inside ⟨[]⟩ "c" 0 0 1000 1000 14
     (by decide) (by decide)).2.1⟩

end Scenarist
